import Mathlib

/-!
Shallow embedding of `src/public/server.js`: a URL-reputation scanner that
queries two upstream services (Cisco Talos, FortiGuard), normalizes their
responses into verdict fragments, classifies each URL by keyword signals
plus a score override, and serves a batch scan route.

JavaScript values flowing through the relevant fields are modelled by
`JSVal` (numbers as `Int`: every numeric literal in the program and in the
properties of interest is an integer; `NaN`/fractional doubles play no role
in any claim). JS truthiness and `String(x)` conversion are modelled
explicitly. Network effects are modelled by explicit oracles, and each
client reports whether it issued a request.
-/

/-- A JavaScript primitive value as it appears in the fields the server
reads: `undefined` (absent key), `null`, integer numbers, strings, booleans. -/
inductive JSVal where
  | undef
  | null
  | num (n : Int)
  | str (s : String)
  | bool (b : Bool)
deriving DecidableEq, Repr

/-- JS truthiness for `JSVal` (`if (x)`): `undefined`, `null`, `0`, `""`,
`false` are falsy, everything else truthy. -/
def truthy : JSVal → Bool
  | .undef => false
  | .null => false
  | .num n => n != 0
  | .str s => s != ""
  | .bool b => b

/-- JS `String(x)` conversion on the values of `JSVal`. -/
def jsToString : JSVal → String
  | .undef => "undefined"
  | .null => "null"
  | .num n => toString n
  | .str s => s
  | .bool b => if b then "true" else "false"

/-- JS `a || b || null`: the first truthy operand, else `null`
(as used by the response field mappings in `queryTalos`/`queryFortiGuard`). -/
def jsOrOrNull (a b : JSVal) : JSVal :=
  if truthy a then a else if truthy b then b else JSVal.null

/-- The parsed JSON body of a Talos response, restricted to the keys the
server reads: `category`, `threat_category`, `score`, `reputation_score`.
A key that is absent holds `JSVal.undef`. -/
structure TalosBody where
  category : JSVal
  threat_category : JSVal
  score : JSVal
  reputation_score : JSVal
deriving DecidableEq, Repr

/-- The parsed JSON body of a FortiGuard response, restricted to the keys
the server reads: `category`, `webfilter_category`, `threat`, `threat_level`. -/
structure FortiBody where
  category : JSVal
  webfilter_category : JSVal
  threat : JSVal
  threat_level : JSVal
deriving DecidableEq, Repr

/-- The normalized Talos verdict fragment built by `queryTalos`
(`{ category, score, raw }`). -/
structure TalosFragment where
  category : JSVal
  score : JSVal
  raw : TalosBody
deriving DecidableEq, Repr

/-- The normalized FortiGuard verdict fragment built by `queryFortiGuard`
(`{ category, threat, raw }`). -/
structure FortiFragment where
  category : JSVal
  threat : JSVal
  raw : FortiBody
deriving DecidableEq, Repr

/-- The field-mapping step of `queryTalos` on a parsed body:
`category: data.category || data.threat_category || null`,
`score: data.score || data.reputation_score || null`, `raw: data`. -/
def mapTalosBody (data : TalosBody) : TalosFragment :=
  { category := jsOrOrNull data.category data.threat_category
  , score := jsOrOrNull data.score data.reputation_score
  , raw := data }

/-- The field-mapping step of `queryFortiGuard` on a parsed body:
`category: data.category || data.webfilter_category || null`,
`threat: data.threat || data.threat_level || null`, `raw: data`. -/
def mapFortiBody (data : FortiBody) : FortiFragment :=
  { category := jsOrOrNull data.category data.webfilter_category
  , threat := jsOrOrNull data.threat data.threat_level
  , raw := data }

/-- Outcome of one network round-trip, as the client code distinguishes it:
a 2xx response with a parsed body, a non-ok HTTP status, or a thrown
transport/parse error. -/
inductive NetOutcome (β : Type) where
  | success (data : β)
  | httpError (status : Nat)
  | failure
deriving DecidableEq, Repr

/-- Evaluation of `process.env.X || "default"`: the default stands in when the variable is
unset (`none`) or set to the empty string (falsy). -/
def resolveEnvDefault (envVar : Option String) (dflt : String) : String :=
  match envVar with
  | some s => if s = "" then dflt else s
  | none => dflt

/-- The placeholder default of `TALOS_API_URL` in the source. -/
def placeholderTalosUrl : String := "https://<your-talos-endpoint>"

/-- The placeholder default of `FORTIGUARD_API_URL` in the source. -/
def placeholderFortiGuardUrl : String := "https://<your-fortiguard-endpoint>"

/-- Embedding of `queryTalos(url)` with the module configuration and the network made
explicit. Returns the fragment-or-null result together with a flag telling
whether a network request was issued. Mirrors the source: return `null`
at once when `TALOS_API_URL` is falsy (empty); otherwise fetch, returning
`null` on a non-ok status or a thrown error, and the mapped fragment on
success. The API key only shapes request headers, never the result. -/
def queryTalos (apiUrl apiKey : String) (net : NetOutcome TalosBody)
    (url : String) : Option TalosFragment × Bool :=
  if apiUrl = "" then (none, false)
  else
    match net with
    | .success data => (some (mapTalosBody data), true)
    | .httpError _ => (none, true)
    | .failure => (none, true)

/-- Embedding of `queryFortiGuard(url)`, exactly like `queryTalos`. -/
def queryFortiGuard (apiUrl apiKey : String) (net : NetOutcome FortiBody)
    (url : String) : Option FortiFragment × Bool :=
  if apiUrl = "" then (none, false)
  else
    match net with
    | .success data => (some (mapFortiBody data), true)
    | .httpError _ => (none, true)
    | .failure => (none, true)

/-- JS `hay.includes(needle)`: substring containment. -/
def strContains (hay needle : String) : Bool :=
  decide (needle.toList <:+: hay.toList)

/-- JS `s.toLowerCase()`, modelled as lowercasing each character (the
categories and keywords in play are ASCII). -/
def strToLower (s : String) : String :=
  String.mk (s.data.map Char.toLower)

/-- The `blockedSignals` keyword list of `classifyFromEngines`. -/
def blockedSignals : List String :=
  ["adult", "porn", "sex", "nsfw", "gore", "violence",
   "malware", "phishing", "botnet", "spam", "hacking"]

/-- The `reviewSignals` keyword list of `classifyFromEngines`. -/
def reviewSignals : List String :=
  ["games", "game", "social", "social networking", "chat",
   "streaming", "video", "entertainment", "proxy", "vpn"]

/-- The `goodSignals` keyword list of `classifyFromEngines`. -/
def goodSignals : List String :=
  ["education", "educational", "reference", "academic",
   "business", "productivity", "search engines"]

/-- The category list built at the top of `classifyFromEngines`: push
`String(talos.category).toLowerCase()` when `talos && talos.category` is
truthy, then likewise `forti.category`, then `forti.threat`. -/
def fragmentCategories (talos : Option TalosFragment)
    (forti : Option FortiFragment) : List String :=
  (match talos with
   | some t => if truthy t.category then [strToLower (jsToString t.category)] else []
   | none => []) ++
  (match forti with
   | some f => if truthy f.category then [strToLower (jsToString f.category)] else []
   | none => []) ++
  (match forti with
   | some f => if truthy f.threat then [strToLower (jsToString f.threat)] else []
   | none => [])

/-- Evaluation of `const catString = categories.join(" | ")`. -/
def catStringOf (talos : Option TalosFragment) (forti : Option FortiFragment) : String :=
  String.intercalate " | " (fragmentCategories talos forti)

/-- Evaluation of `signals.some(s => catString.includes(s))`. -/
def hasSignal (signals : List String) (catString : String) : Bool :=
  signals.any (fun s => strContains catString s)

/-- The final verdict status. -/
inductive Status where
  | blocked
  | review
  | good
  | unknown
deriving DecidableEq, Repr

/-- The `{ status, label, reason }` record returned by `classifyFromEngines`. -/
structure Classification where
  status : Status
  label : String
  reason : String
deriving DecidableEq, Repr

/-- Reason string of the blocked keyword branch. -/
def blockedReason : String :=
  "Talos/FortiGuard category indicates adult, gore, malware, or similar high‑risk content."

/-- Reason string of the review keyword branch. -/
def reviewReason : String :=
  "Talos/FortiGuard category indicates games, social, streaming, or proxy‑like content."

/-- Reason string of the good keyword branch. -/
def goodReason : String :=
  "Talos/FortiGuard category indicates educational, reference, or productivity content."

/-- Reason string of the unknown default. -/
def unknownReason : String :=
  "No strong policy signals from Talos/FortiGuard categories."

/-- Reason string of the Talos negative-score override. -/
def talosOverrideReason : String :=
  "Cisco Talos reputation score is negative (high risk)."

/-- The keyword step of `classifyFromEngines`: the value of
`{status, label, reason}` after the `if (hasBlocked) ... else if ...`
chain and before the score override. -/
def keywordClassification (talos : Option TalosFragment)
    (forti : Option FortiFragment) : Classification :=
  let catString := catStringOf talos forti
  if hasSignal blockedSignals catString then
    ⟨Status.blocked, "Blocked", blockedReason⟩
  else if hasSignal reviewSignals catString then
    ⟨Status.review, "Needs review", reviewReason⟩
  else if hasSignal goodSignals catString then
    ⟨Status.good, "Good", goodReason⟩
  else
    ⟨Status.unknown, "Unsure", unknownReason⟩

/-- The override guard: `talos && typeof talos.score === "number" && talos.score < 0`. -/
def talosNegative (talos : Option TalosFragment) : Bool :=
  match talos with
  | some t =>
    match t.score with
    | .num n => n < 0
    | _ => false
  | none => false

/-- The classifier `classifyFromEngines(url, talos, forti)`: keyword step, then the
negative-score override rewrites status, label and reason. The lowercased
URL is computed by the source but never read. -/
def classifyFromEngines (url : String) (talos : Option TalosFragment)
    (forti : Option FortiFragment) : Classification :=
  let _lowerUrl := strToLower url
  let base := keywordClassification talos forti
  if talosNegative talos then
    ⟨Status.blocked, "Blocked", talosOverrideReason⟩
  else base

/-- One entry of the `results` array assembled by the `/api/scan` route. -/
structure ScanResult where
  url : String
  status : Status
  label : String
  reason : String
  talos : Option TalosFragment
  fortiguard : Option FortiFragment
deriving DecidableEq, Repr

/-- What processing one URL inside the route's `try` block amounts to:
either both client calls return (each possibly `null`), or something in
the block throws (carrying an error description). -/
inductive UrlOutcome where
  | ok (talos : Option TalosFragment) (fortiguard : Option FortiFragment)
  | err (e : String)
deriving DecidableEq, Repr

/-- The body of the per-URL `try/catch` in the route: on success push the
classified result with its fragments, on a throw push the unknown fallback. -/
def processUrl (url : String) (outcome : UrlOutcome) : ScanResult :=
  match outcome with
  | .ok talos fortiguard =>
    let verdict := classifyFromEngines url talos fortiguard
    ⟨url, verdict.status, verdict.label, verdict.reason, talos, fortiguard⟩
  | .err _ =>
    ⟨url, Status.unknown, "Unsure", "Error querying Talos/FortiGuard.", none, none⟩

/-- The sequential `for (const url of urls)` loop: the `i`-th URL is
processed against the upstream outcome `env i` (the oracle is indexed by
position, so repeated URLs may see different upstream answers). -/
def scanGo (urls : List String) (env : Nat → UrlOutcome) (i : Nat) : List ScanResult :=
  match urls with
  | [] => []
  | url :: rest => processUrl url (env i) :: scanGo rest env (i + 1)

/-- The route's reply: a 400 error body `{error, results: []}` or a 200
body `{results}`. -/
inductive ScanResponse where
  | badRequest (error : String) (results : List ScanResult)
  | okResponse (results : List ScanResult)
deriving DecidableEq, Repr

/-- The value `req.body.urls` as the route sees it: an array (of URL strings) or any
non-array value, which `Array.isArray` maps to `[]`. -/
inductive ReqUrls where
  | arr (urls : List String)
  | notArray
deriving DecidableEq, Repr

/-- The `/api/scan` handler: validate the list, then run the loop. The
second component records, in order, the URLs for which the two upstream
client calls were issued (empty when validation fails the batch). -/
def apiScan (body : ReqUrls) (env : Nat → UrlOutcome) :
    ScanResponse × List String :=
  let urls := match body with
    | .arr us => us
    | .notArray => []
  if urls.isEmpty then
    (ScanResponse.badRequest "No URLs provided." [], [])
  else
    (ScanResponse.okResponse (scanGo urls env 0), urls)

/-- The joined category string as the specification words it: the same
category list, but joined with a single space instead of the source's
`" | "` separator. Used to compare the spec's description with the code. -/
def specCatStringSpace (talos : Option TalosFragment)
    (forti : Option FortiFragment) : String :=
  String.intercalate " " (fragmentCategories talos forti)

/-- The response field mapping as the specification words it: the first
candidate value that is present and non-null wins (an absent key counts as
not present), defaulting to `null`. Used to compare the spec's description
with the code's truthiness-based `||` chains. -/
def specFirstNonNull (a b : JSVal) : JSVal :=
  if a ≠ JSVal.null ∧ a ≠ JSVal.undef then a
  else if b ≠ JSVal.null ∧ b ≠ JSVal.undef then b
  else JSVal.null

/-- Each scan result carries one entry per input URL: the loop output has
the input's length. -/
theorem scanGo_length (urls : List String) (env : Nat → UrlOutcome) (i : Nat) :
    (scanGo urls env i).length = urls.length := by
  induction urls generalizing i with
  | nil => rfl
  | cons u rest ih => simp [scanGo, ih]

/-- The `url` fields of the loop output are exactly the input URLs, in
order. -/
theorem scanGo_map_url (urls : List String) (env : Nat → UrlOutcome) (i : Nat) :
    (scanGo urls env i).map ScanResult.url = urls := by
  induction urls generalizing i with
  | nil => rfl
  | cons u rest ih =>
    simp only [scanGo, List.map_cons, ih]
    cases env i <;> rfl

/-- The `i`-th loop output is the processing of the `i`-th URL against the
`(k+i)`-th upstream outcome. -/
theorem scanGo_getElem (urls : List String) (env : Nat → UrlOutcome) (k i : Nat) :
    (scanGo urls env k)[i]? = (urls[i]?).map (fun u => processUrl u (env (k + i))) := by
  induction urls generalizing k i with
  | nil => simp [scanGo]
  | cons u rest ih =>
    cases i with
    | zero => simp [scanGo]
    | succ j =>
      have harith : k + (j + 1) = (k + 1) + j := by omega
      simp [scanGo, ih (k + 1) j, harith]

/-- The override guard fires exactly when the Talos fragment exists and its
`score` field holds a strictly negative number. -/
theorem talosNegative_iff (talos : Option TalosFragment) :
    talosNegative talos = true ↔
      ∃ t n, talos = some t ∧ t.score = JSVal.num n ∧ n < 0 := by
  cases talos with
  | none => simp [talosNegative]
  | some t => cases hs : t.score <;> simp [talosNegative, hs]

/-- C1, counterexample: with a Talos fragment whose category is `"games"`
and whose score is `-1`, no blocked-signal matches and a review-signal
matches, yet the classifier does not return status `review` — the score
override forces `blocked`, so the claimed review branch does not hold for
every pair of fragments. -/
theorem C1_counterexample :
    hasSignal blockedSignals (catStringOf
      (some ⟨JSVal.str "games", JSVal.num (-1),
        ⟨JSVal.null, JSVal.null, JSVal.null, JSVal.null⟩⟩) none) = false ∧
    hasSignal reviewSignals (catStringOf
      (some ⟨JSVal.str "games", JSVal.num (-1),
        ⟨JSVal.null, JSVal.null, JSVal.null, JSVal.null⟩⟩) none) = true ∧
    (classifyFromEngines "http://games.example"
      (some ⟨JSVal.str "games", JSVal.num (-1),
        ⟨JSVal.null, JSVal.null, JSVal.null, JSVal.null⟩⟩) none).status ≠
      Status.review ∧
    (classifyFromEngines "http://games.example"
      (some ⟨JSVal.str "games", JSVal.num (-1),
        ⟨JSVal.null, JSVal.null, JSVal.null, JSVal.null⟩⟩) none).status =
      Status.blocked := by
  decide

/-- C1 (amended): provided the negative-score override does not fire, the
keyword step decides with fixed priority — a blocked-signal match yields
the blocked status/label/reason regardless of review or good matches; with
no blocked match, a review-signal match yields the review branch
regardless of good matches; with neither, a good-signal match yields the
good branch — each branch with its fixed label and reason strings. -/
theorem C1_keyword_priority (url : String) (talos : Option TalosFragment)
    (forti : Option FortiFragment) (hno : talosNegative talos = false) :
    (hasSignal blockedSignals (catStringOf talos forti) = true →
      classifyFromEngines url talos forti =
        ⟨Status.blocked, "Blocked", blockedReason⟩) ∧
    (hasSignal blockedSignals (catStringOf talos forti) = false →
      hasSignal reviewSignals (catStringOf talos forti) = true →
      classifyFromEngines url talos forti =
        ⟨Status.review, "Needs review", reviewReason⟩) ∧
    (hasSignal blockedSignals (catStringOf talos forti) = false →
      hasSignal reviewSignals (catStringOf talos forti) = false →
      hasSignal goodSignals (catStringOf talos forti) = true →
      classifyFromEngines url talos forti =
        ⟨Status.good, "Good", goodReason⟩) := by
  refine ⟨fun hb => ?_, fun hb hr => ?_, fun hb hr hg => ?_⟩ <;>
    simp [classifyFromEngines, keywordClassification, hno, *]

/-- C1 witness: a review-signal category on Talos together with a
good-signal category on FortiGuard (and no override) classifies as the
review branch, review dominating good. -/
theorem C1_keyword_priority_witness :
    classifyFromEngines "http://w.example"
      (some ⟨JSVal.str "games", JSVal.null,
        ⟨JSVal.null, JSVal.null, JSVal.null, JSVal.null⟩⟩)
      (some ⟨JSVal.str "Education", JSVal.null,
        ⟨JSVal.null, JSVal.null, JSVal.null, JSVal.null⟩⟩) =
      ⟨Status.review, "Needs review", reviewReason⟩ :=
  (C1_keyword_priority "http://w.example"
    (some ⟨JSVal.str "games", JSVal.null,
      ⟨JSVal.null, JSVal.null, JSVal.null, JSVal.null⟩⟩)
    (some ⟨JSVal.str "Education", JSVal.null,
      ⟨JSVal.null, JSVal.null, JSVal.null, JSVal.null⟩⟩)
    (by decide)).2.1 (by decide) (by decide)

/-- C2: the final classification is the blocked override exactly when the
Talos fragment exists and its `score` field holds a strictly negative
number; in every other case (Talos null, or score absent, non-numeric,
zero, or positive) the keyword-step result stands unchanged — and the
conditions never mention the FortiGuard fragment, so its fields cannot
trigger the override. -/
theorem C2_score_override (url : String) (talos : Option TalosFragment)
    (forti : Option FortiFragment) :
    ((∃ t n, talos = some t ∧ t.score = JSVal.num n ∧ n < 0) →
      classifyFromEngines url talos forti =
        ⟨Status.blocked, "Blocked", talosOverrideReason⟩) ∧
    ((¬ ∃ t n, talos = some t ∧ t.score = JSVal.num n ∧ n < 0) →
      classifyFromEngines url talos forti = keywordClassification talos forti) := by
  constructor
  · intro hex
    have hneg : talosNegative talos = true := (talosNegative_iff talos).mpr hex
    simp [classifyFromEngines, hneg]
  · intro hnex
    have hneg : talosNegative talos = false := by
      rcases h : talosNegative talos with _ | _
      · rfl
      · exact absurd ((talosNegative_iff talos).mp h) hnex
    simp [classifyFromEngines, hneg]

/-- C2 witness: a Talos fragment with a good-signal category but score
`-5` is still classified blocked with the override reason. -/
theorem C2_score_override_witness :
    classifyFromEngines "http://w2.example"
      (some ⟨JSVal.str "education", JSVal.num (-5),
        ⟨JSVal.null, JSVal.null, JSVal.null, JSVal.null⟩⟩) none =
      ⟨Status.blocked, "Blocked", talosOverrideReason⟩ :=
  (C2_score_override "http://w2.example"
    (some ⟨JSVal.str "education", JSVal.num (-5),
      ⟨JSVal.null, JSVal.null, JSVal.null, JSVal.null⟩⟩) none).1
    ⟨⟨JSVal.str "education", JSVal.num (-5),
      ⟨JSVal.null, JSVal.null, JSVal.null, JSVal.null⟩⟩, -5, rfl, rfl, by decide⟩

/-- C3, counterexample: the classifier joins the categories with the
three-character separator `" | "`, not a single space. With Talos category
`"search"` and FortiGuard category `"engines"` the built string is
`"search | engines"` while the claim's space-joined string would be
`"search engines"`; the difference is observable: the space-joined string
matches the good-signal `"search engines"`, yet the code classifies the
pair as unknown. -/
theorem C3_counterexample :
    catStringOf
      (some ⟨JSVal.str "search", JSVal.null,
        ⟨JSVal.null, JSVal.null, JSVal.null, JSVal.null⟩⟩)
      (some ⟨JSVal.str "engines", JSVal.null,
        ⟨JSVal.null, JSVal.null, JSVal.null, JSVal.null⟩⟩) = "search | engines" ∧
    specCatStringSpace
      (some ⟨JSVal.str "search", JSVal.null,
        ⟨JSVal.null, JSVal.null, JSVal.null, JSVal.null⟩⟩)
      (some ⟨JSVal.str "engines", JSVal.null,
        ⟨JSVal.null, JSVal.null, JSVal.null, JSVal.null⟩⟩) = "search engines" ∧
    catStringOf
      (some ⟨JSVal.str "search", JSVal.null,
        ⟨JSVal.null, JSVal.null, JSVal.null, JSVal.null⟩⟩)
      (some ⟨JSVal.str "engines", JSVal.null,
        ⟨JSVal.null, JSVal.null, JSVal.null, JSVal.null⟩⟩) ≠
      specCatStringSpace
        (some ⟨JSVal.str "search", JSVal.null,
          ⟨JSVal.null, JSVal.null, JSVal.null, JSVal.null⟩⟩)
        (some ⟨JSVal.str "engines", JSVal.null,
          ⟨JSVal.null, JSVal.null, JSVal.null, JSVal.null⟩⟩) ∧
    hasSignal goodSignals (specCatStringSpace
      (some ⟨JSVal.str "search", JSVal.null,
        ⟨JSVal.null, JSVal.null, JSVal.null, JSVal.null⟩⟩)
      (some ⟨JSVal.str "engines", JSVal.null,
        ⟨JSVal.null, JSVal.null, JSVal.null, JSVal.null⟩⟩)) = true ∧
    (classifyFromEngines "http://se.example"
      (some ⟨JSVal.str "search", JSVal.null,
        ⟨JSVal.null, JSVal.null, JSVal.null, JSVal.null⟩⟩)
      (some ⟨JSVal.str "engines", JSVal.null,
        ⟨JSVal.null, JSVal.null, JSVal.null, JSVal.null⟩⟩)).status =
      Status.unknown := by
  decide

/-- C3 (amended): the tested string takes the candidate values
`fragmentA.category`, `fragmentB.category`, `fragmentB.threat` in exactly
that order, drops the falsy ones (null, absent, and the empty string),
lowercases each, and joins them with the separator `" | "` (not a single
space); keyword matching is substring containment of the (lowercase)
keyword in this joined string. -/
theorem C3_joined_string (talos : Option TalosFragment)
    (forti : Option FortiFragment) (sigs : List String) :
    fragmentCategories talos forti =
      (([(match talos with | some t => t.category | none => JSVal.undef),
         (match forti with | some f => f.category | none => JSVal.undef),
         (match forti with | some f => f.threat | none => JSVal.undef)].filter
          truthy).map (fun v => strToLower (jsToString v))) ∧
    catStringOf talos forti =
      String.intercalate " | " (fragmentCategories talos forti) ∧
    (hasSignal sigs (catStringOf talos forti) = true ↔
      ∃ s ∈ sigs, s.toList <:+: (catStringOf talos forti).toList) := by
  refine ⟨?_, rfl, ?_⟩
  · have hu : truthy JSVal.undef = false := rfl
    rcases talos with _ | t <;> rcases forti with _ | f
    · rfl
    · by_cases hc : truthy f.category <;> by_cases ht : truthy f.threat <;>
        simp [fragmentCategories, List.filter, hc, ht, hu]
    · by_cases hc : truthy t.category <;>
        simp [fragmentCategories, List.filter, hc, hu]
    · by_cases htc : truthy t.category <;> by_cases hc : truthy f.category <;>
        by_cases ht : truthy f.threat <;>
        simp [fragmentCategories, List.filter, htc, hc, ht, hu]
  · simp [hasSignal, strContains, List.any_eq_true]

/-- C3 witness: on a concrete fragment pair the category list equals the
filter-map form at the heart of the amended claim. -/
theorem C3_joined_string_witness :
    fragmentCategories
      (some ⟨JSVal.str "Phishing", JSVal.null,
        ⟨JSVal.null, JSVal.null, JSVal.null, JSVal.null⟩⟩)
      (some ⟨JSVal.str "", JSVal.str "Malicious Websites",
        ⟨JSVal.null, JSVal.null, JSVal.null, JSVal.null⟩⟩) =
      (([JSVal.str "Phishing", JSVal.str "", JSVal.str "Malicious Websites"].filter
        truthy).map (fun v => strToLower (jsToString v))) :=
  (C3_joined_string
    (some ⟨JSVal.str "Phishing", JSVal.null,
      ⟨JSVal.null, JSVal.null, JSVal.null, JSVal.null⟩⟩)
    (some ⟨JSVal.str "", JSVal.str "Malicious Websites",
      ⟨JSVal.null, JSVal.null, JSVal.null, JSVal.null⟩⟩) blockedSignals).1

/-- C4: with both fragments null the classifier always returns the unknown
default: status `unknown`, label `"Unsure"`, and the no-signals reason. -/
theorem C4_both_null_unknown (url : String) :
    classifyFromEngines url none none =
      ⟨Status.unknown, "Unsure", unknownReason⟩ := rfl

/-- C5: for every non-empty URL list and every pattern of upstream
outcomes (including per-URL failures and throws), the scan route answers
with the loop's results, and those results carry exactly the input URLs in
input order — same length, no drop, no addition, no reordering, duplicates
kept. -/
theorem C5_order_preservation (urls : List String) (env : Nat → UrlOutcome)
    (h : urls ≠ []) :
    (apiScan (ReqUrls.arr urls) env).1 =
      ScanResponse.okResponse (scanGo urls env 0) ∧
    (scanGo urls env 0).map ScanResult.url = urls ∧
    (scanGo urls env 0).length = urls.length := by
  refine ⟨?_, scanGo_map_url urls env 0, scanGo_length urls env 0⟩
  cases urls with
  | nil => exact absurd rfl h
  | cons u rest => rfl

/-- C5 witness: a three-entry batch with a duplicate URL and a throw on
the middle entry still yields exactly the input URLs in order. -/
theorem C5_order_preservation_witness :
    (scanGo ["http://x.example", "http://x.example", "http://y.example"]
      (fun n => if n = 1 then UrlOutcome.err "boom"
        else UrlOutcome.ok none
          (some ⟨JSVal.str "Online Games", JSVal.null,
            ⟨JSVal.null, JSVal.null, JSVal.null, JSVal.null⟩⟩)) 0).map
      ScanResult.url = ["http://x.example", "http://x.example", "http://y.example"] :=
  (C5_order_preservation ["http://x.example", "http://x.example", "http://y.example"]
    (fun n => if n = 1 then UrlOutcome.err "boom"
      else UrlOutcome.ok none
        (some ⟨JSVal.str "Online Games", JSVal.null,
          ⟨JSVal.null, JSVal.null, JSVal.null, JSVal.null⟩⟩))
    (by decide)).2.1

/-- C6: when processing the `i`-th URL throws, the scan loop substitutes
for that URL exactly the fallback entry — status `unknown`, label
`"Unsure"`, the fixed reason `"Error querying Talos/FortiGuard."` (which
names both services, hence the failing one: it contains `"Talos"` and
`"FortiGuard"` as substrings), both fragments null — while every URL whose
processing does not throw still gets its normal classified result: one
URL's failure never aborts the batch. -/
theorem C6_per_url_isolation (urls : List String) (env : Nat → UrlOutcome)
    (i : Nat) (e : String) (he : env i = UrlOutcome.err e) :
    (scanGo urls env 0)[i]? = (urls[i]?).map (fun u =>
      ⟨u, Status.unknown, "Unsure", "Error querying Talos/FortiGuard.",
        none, none⟩) ∧
    strContains "Error querying Talos/FortiGuard." "Talos" = true ∧
    strContains "Error querying Talos/FortiGuard." "FortiGuard" = true ∧
    ∀ j t f, env j = UrlOutcome.ok t f →
      (scanGo urls env 0)[j]? = (urls[j]?).map (fun u =>
        ⟨u, (classifyFromEngines u t f).status, (classifyFromEngines u t f).label,
          (classifyFromEngines u t f).reason, t, f⟩) := by
  refine ⟨?_, by decide, by decide, ?_⟩
  · rw [scanGo_getElem urls env 0 i]
    simp [Nat.zero_add, he, processUrl]
  · intro j t f hok
    rw [scanGo_getElem urls env 0 j]
    simp [Nat.zero_add, hok, processUrl]

/-- C6 witness: in a three-URL batch whose middle entry throws, the middle
result is the unknown fallback entry. -/
theorem C6_per_url_isolation_witness :
    (scanGo ["http://a.example", "http://b.example", "http://c.example"]
      (fun n => if n = 1 then UrlOutcome.err "boom"
        else UrlOutcome.ok
          (some ⟨JSVal.str "education", JSVal.null,
            ⟨JSVal.null, JSVal.null, JSVal.null, JSVal.null⟩⟩) none) 0)[1]? =
      some ⟨"http://b.example", Status.unknown, "Unsure",
        "Error querying Talos/FortiGuard.", none, none⟩ :=
  (C6_per_url_isolation ["http://a.example", "http://b.example", "http://c.example"]
    (fun n => if n = 1 then UrlOutcome.err "boom"
      else UrlOutcome.ok
        (some ⟨JSVal.str "education", JSVal.null,
          ⟨JSVal.null, JSVal.null, JSVal.null, JSVal.null⟩⟩) none)
    1 "boom" rfl).1

/-- C7: an empty URL array, and any non-array `urls` value, make the route
answer the 400 client error `"No URLs provided."` with an empty result
list, and the loop never runs: no upstream query is issued for any URL
(the recorded queried-URL trace is empty), whatever the upstream would
have answered. -/
theorem C7_empty_batch_rejected (env : Nat → UrlOutcome) :
    apiScan (ReqUrls.arr []) env =
      (ScanResponse.badRequest "No URLs provided." [], []) ∧
    apiScan ReqUrls.notArray env =
      (ScanResponse.badRequest "No URLs provided." [], []) :=
  ⟨rfl, rfl⟩

/-- C8: the clients do not skip the network when unconfigured. An unset or
empty environment variable resolves to the non-empty placeholder default,
so the guard that returns null without a request (which requires an empty
URL string) never fires: with the placeholder configuration both clients
issue a request (flag `true`), returning null only because the request
fails. The claimed no-request path exists only for an empty URL value,
which the defaulting rule never produces. -/
theorem C8_placeholder_still_requests :
    resolveEnvDefault none placeholderTalosUrl = placeholderTalosUrl ∧
    resolveEnvDefault (some "") placeholderTalosUrl = placeholderTalosUrl ∧
    resolveEnvDefault none placeholderFortiGuardUrl = placeholderFortiGuardUrl ∧
    placeholderTalosUrl ≠ "" ∧
    placeholderFortiGuardUrl ≠ "" ∧
    queryTalos placeholderTalosUrl "" NetOutcome.failure "http://u.example" =
      (none, true) ∧
    queryFortiGuard placeholderFortiGuardUrl "" NetOutcome.failure "http://u.example" =
      (none, true) ∧
    queryTalos "" "" NetOutcome.failure "http://u.example" = (none, false) := by
  decide

/-- C9, counterexample: the field mapping keeps the first truthy
candidate, not the first non-null one. A Talos body with `category: ""`
and `threat_category: "uncategorized"` maps to category
`"uncategorized"`, although the claim's first-non-null rule would keep
`""`; a body with `score: 0` and `reputation_score: 96` maps to score
`96`, although the claim's rule would keep `0`. -/
theorem C9_counterexample :
    (mapTalosBody ⟨JSVal.str "", JSVal.str "uncategorized",
        JSVal.num 0, JSVal.num 96⟩).category = JSVal.str "uncategorized" ∧
    specFirstNonNull (JSVal.str "") (JSVal.str "uncategorized") = JSVal.str "" ∧
    (mapTalosBody ⟨JSVal.str "", JSVal.str "uncategorized",
        JSVal.num 0, JSVal.num 96⟩).category ≠
      specFirstNonNull (JSVal.str "") (JSVal.str "uncategorized") ∧
    (mapTalosBody ⟨JSVal.str "", JSVal.str "uncategorized",
        JSVal.num 0, JSVal.num 96⟩).score = JSVal.num 96 ∧
    specFirstNonNull (JSVal.num 0) (JSVal.num 96) = JSVal.num 0 ∧
    (mapTalosBody ⟨JSVal.str "", JSVal.str "uncategorized",
        JSVal.num 0, JSVal.num 96⟩).score ≠
      specFirstNonNull (JSVal.num 0) (JSVal.num 96) := by
  decide

/-- C9 (amended): per logical field the mapping tries the primary key then
the fallback key and the first truthy value wins — a falsy primary value
(null, absent, empty string, zero, false) is skipped in favor of the
fallback, and when both candidates are falsy the field is null; the full
parsed body is retained unchanged as `raw`. This holds for Talos
(`category`/`threat_category`, `score`/`reputation_score`) and FortiGuard
(`category`/`webfilter_category`, `threat`/`threat_level`). -/
theorem C9_first_truthy_mapping (d : TalosBody) (e : FortiBody) :
    ((truthy d.category = true → (mapTalosBody d).category = d.category) ∧
     (truthy d.category = false → truthy d.threat_category = true →
        (mapTalosBody d).category = d.threat_category) ∧
     (truthy d.category = false → truthy d.threat_category = false →
        (mapTalosBody d).category = JSVal.null)) ∧
    ((truthy d.score = true → (mapTalosBody d).score = d.score) ∧
     (truthy d.score = false → truthy d.reputation_score = true →
        (mapTalosBody d).score = d.reputation_score) ∧
     (truthy d.score = false → truthy d.reputation_score = false →
        (mapTalosBody d).score = JSVal.null)) ∧
    ((truthy e.category = true → (mapFortiBody e).category = e.category) ∧
     (truthy e.category = false → truthy e.webfilter_category = true →
        (mapFortiBody e).category = e.webfilter_category) ∧
     (truthy e.category = false → truthy e.webfilter_category = false →
        (mapFortiBody e).category = JSVal.null)) ∧
    ((truthy e.threat = true → (mapFortiBody e).threat = e.threat) ∧
     (truthy e.threat = false → truthy e.threat_level = true →
        (mapFortiBody e).threat = e.threat_level) ∧
     (truthy e.threat = false → truthy e.threat_level = false →
        (mapFortiBody e).threat = JSVal.null)) ∧
    (mapTalosBody d).raw = d ∧ (mapFortiBody e).raw = e := by
  refine ⟨⟨?_, ?_, ?_⟩, ⟨?_, ?_, ?_⟩, ⟨?_, ?_, ?_⟩, ⟨?_, ?_, ?_⟩, rfl, rfl⟩ <;>
    intros <;> simp [mapTalosBody, mapFortiBody, jsOrOrNull, *]

/-- C9 witness: a body whose primary `category` is truthy keeps it, on a
concrete input. -/
theorem C9_first_truthy_mapping_witness :
    (mapTalosBody ⟨JSVal.str "news", JSVal.null, JSVal.null, JSVal.num 3⟩).category =
      JSVal.str "news" :=
  (C9_first_truthy_mapping ⟨JSVal.str "news", JSVal.null, JSVal.null, JSVal.num 3⟩
    ⟨JSVal.null, JSVal.null, JSVal.null, JSVal.null⟩).1.1 (by decide)

/-- C10: the classification never depends on the URL argument — for any
two URL strings and any fragment pair, `classifyFromEngines` returns the
same status, label and reason (the lowercased URL the source computes is
never read). -/
theorem C10_url_independent (url1 url2 : String) (talos : Option TalosFragment)
    (forti : Option FortiFragment) :
    classifyFromEngines url1 talos forti = classifyFromEngines url2 talos forti := rfl
